import Mathlib

/-!
Verification of the bevel filter pass (`render/wgpu/src/filters/bevel.rs`) and
of the `VertexBuffer3DObject` wrapper
(`core/src/avm2/object/vertex_buffer_3d_object.rs`).

The Rust code is shallowly embedded: machine `f32` arithmetic on the filter
parameters (cosine, sine, multiplication, ceiling) is idealised as real
arithmetic with `Int.ceil`; 8-bit colour channels become naturals and the
normalised colours exact rationals; GPU handles (textures, pipelines, script
objects) become type parameters.  Each definition mirrors one function or
struct of the source.
-/

/-- The `swf::Rectangle<i32>` values flowing through `calculate_dest_rect`. -/
structure Rect where
  x_min : Int
  x_max : Int
  y_min : Int
  y_max : Int
deriving DecidableEq

/-- `BevelFilter::calculate_dest_rect`, lines 127-153 of `bevel.rs`, after the
call into the blur sub-filter: `blur` is the rectangle the blur sub-filter
returned, `x = ceil(cos(angle) * distance)` and `y = ceil(sin(angle) * distance)`
are the already-ceiled integer offsets.  The sign-asymmetric updates are kept
exactly as written in the source. -/
def calculate_dest_rect (blur : Rect) (x y : Int) : Rect :=
  let r1 :=
    if x < 0 then
      { blur with x_min := blur.x_min + x, x_max := blur.x_max - x }
    else
      { blur with x_max := blur.x_max + x, x_min := blur.x_min - x }
  if y < 0 then
    { r1 with y_min := r1.y_min + y, y_max := r1.y_max - y }
  else
    { r1 with y_max := r1.y_max + y, y_min := r1.y_min - y }

/-- Modelled from the spec: the rectangle `r` grown symmetrically by `dx` on
each x side and by `dy` on each y side ("expanded by ... on each x side").
Used only to compare the source's asymmetric formulation against the spec's
wording. -/
def expand_sym (r : Rect) (dx dy : Int) : Rect :=
  { x_min := r.x_min - dx
    x_max := r.x_max + dx
    y_min := r.y_min - dy
    y_max := r.y_max + dy }

/-- `outer` contains `inner` (each side of `inner` within `outer`). -/
def rect_contains (outer inner : Rect) : Prop :=
  outer.x_min ≤ inner.x_min ∧ inner.x_max ≤ outer.x_max ∧
    outer.y_min ≤ inner.y_min ∧ inner.y_max ≤ outer.y_max

instance (o i : Rect) : Decidable (rect_contains o i) := by
  unfold rect_contains; infer_instance

/-- Strict containment: containment together with the rectangles differing. -/
def strict_rect_contains (outer inner : Rect) : Prop :=
  rect_contains outer inner ∧ outer ≠ inner

instance (o i : Rect) : Decidable (strict_rect_contains o i) := by
  unfold strict_rect_contains; infer_instance

/-- The sign-asymmetric update of `calculate_dest_rect` coincides with the
symmetric growth by the absolute offsets. -/
theorem calc_eq_expand (blur : Rect) (x y : Int) :
    calculate_dest_rect blur x y = expand_sym blur |x| |y| := by
  unfold calculate_dest_rect expand_sym
  rcases lt_or_le x 0 with hx | hx <;> rcases lt_or_le y 0 with hy | hy
  · simp only [if_pos hx, if_pos hy, abs_of_neg hx, abs_of_neg hy, Rect.mk.injEq]
    omega
  · simp only [if_pos hx, if_neg (not_lt.mpr hy), abs_of_neg hx, abs_of_nonneg hy,
      Rect.mk.injEq, and_true, true_and]
    omega
  · simp only [if_neg (not_lt.mpr hx), if_pos hy, abs_of_nonneg hx, abs_of_neg hy,
      Rect.mk.injEq, and_true, true_and]
    omega
  · simp only [if_neg (not_lt.mpr hx), if_neg (not_lt.mpr hy), abs_of_nonneg hx,
      abs_of_nonneg hy, Rect.mk.injEq, and_true, true_and]
    try omega

/-- The `blur_offset` pair computed in `BevelFilter::apply`, line 185 of
`bevel.rs`: `(angle.cos() * distance, angle.sin() * distance)`.  Stated
polymorphically so the definition stays executable; the theorems instantiate
the scalars with the real cosine and sine of the angle. -/
def blur_offset (K : Type) [Mul K] (c s d : K) : K × K :=
  (c * d, s * d)

/-- Claim C1 fails as stated: at angle `π`, distance `5/2` and blur rectangle
`[0,10] × [0,10]`, the code offsets are `⌈cos π · 5/2⌉ = -2` and `⌈sin π · 5/2⌉ = 0`,
so the destination rectangle is `[-2,12] × [0,10]`, which does not contain
(let alone strictly contain) the blur rectangle expanded by
`⌈|cos π| · 5/2⌉ = 3` on each x side, namely `[-3,13] × [0,10]`. -/
theorem C1_dest_rect_counterexample :
    ¬ strict_rect_contains
      (calculate_dest_rect ⟨0, 10, 0, 10⟩
        ⌈Real.cos Real.pi * (5 / 2 : ℝ)⌉ ⌈Real.sin Real.pi * (5 / 2 : ℝ)⌉)
      (expand_sym ⟨0, 10, 0, 10⟩
        ⌈|Real.cos Real.pi| * (5 / 2 : ℝ)⌉ ⌈|Real.sin Real.pi| * (5 / 2 : ℝ)⌉) := by
  have h1 : (⌈Real.cos Real.pi * (5 / 2 : ℝ)⌉ : Int) = -2 := by
    rw [Real.cos_pi, Int.ceil_eq_iff] <;> norm_num
  have h2 : (⌈Real.sin Real.pi * (5 / 2 : ℝ)⌉ : Int) = 0 := by
    rw [Real.sin_pi]; norm_num
  have h3 : (⌈|Real.cos Real.pi| * (5 / 2 : ℝ)⌉ : Int) = 3 := by
    rw [Real.cos_pi, Int.ceil_eq_iff] <;> norm_num
  have h4 : (⌈|Real.sin Real.pi| * (5 / 2 : ℝ)⌉ : Int) = 0 := by
    rw [Real.sin_pi]; norm_num
  rw [h1, h2, h3, h4]
  decide

/-- Claim C1 (amended): for every blur rectangle, every distance `≥ 0` and
every angle, the rectangle returned by `calculate_dest_rect` EQUALS (hence
contains, but not strictly) the blur sub-filter's rectangle expanded by
`|⌈cos(angle)·distance⌉|` on each x side and `|⌈sin(angle)·distance⌉|` on
each y side. -/
theorem C1_dest_rect_expansion (blur : Rect) (d θ : ℝ) (x y : Int)
    (hd : 0 ≤ d) (hx : x = ⌈Real.cos θ * d⌉) (hy : y = ⌈Real.sin θ * d⌉) :
    calculate_dest_rect blur x y = expand_sym blur |x| |y| ∧
      rect_contains (calculate_dest_rect blur x y) (expand_sym blur |x| |y|) := by
  constructor
  · exact calc_eq_expand blur x y
  · rw [calc_eq_expand blur x y]
    unfold rect_contains expand_sym
    exact ⟨le_refl _, le_refl _, le_refl _, le_refl _⟩

/-- Witness for C1 at angle `π`, distance `5/2`, blur rectangle `[0,10] × [0,10]`:
the code offsets are `x = -2`, `y = 0` and the destination rectangle equals the
symmetric expansion by `|x| = 2`, `|y| = 0`. -/
theorem C1_dest_rect_expansion_witness :
    calculate_dest_rect ⟨0, 10, 0, 10⟩ (-2) 0 =
        expand_sym ⟨0, 10, 0, 10⟩ |(-2 : Int)| |(0 : Int)| ∧
      rect_contains (calculate_dest_rect ⟨0, 10, 0, 10⟩ (-2) 0)
        (expand_sym ⟨0, 10, 0, 10⟩ |(-2 : Int)| |(0 : Int)|) :=
  C1_dest_rect_expansion ⟨0, 10, 0, 10⟩ (5 / 2) Real.pi (-2) 0 (by norm_num)
    (by rw [Real.cos_pi, eq_comm, Int.ceil_eq_iff] <;> norm_num)
    (by rw [Real.sin_pi]; norm_num)

/-- Claim C4: the sign-asymmetric update in `calculate_dest_rect` is
equivalent to growing the blur-expanded rectangle symmetrically by `|x|` on
both x sides and `|y|` on both y sides; in particular for angle `π` and
distance `5` the x offset after ceiling is `⌈cos π · 5⌉ = -5` and the
rectangle grows by `5` on both x sides. -/
theorem C4_asymmetric_update_equiv_symmetric :
    (∀ (blur : Rect) (x y : Int),
        calculate_dest_rect blur x y = expand_sym blur |x| |y|) ∧
      (⌈Real.cos Real.pi * (5 : ℝ)⌉ : Int) = -5 ∧
      ∀ blur : Rect, calculate_dest_rect blur (-5) 0 = expand_sym blur 5 0 := by
  refine ⟨calc_eq_expand, ?_, ?_⟩
  · rw [Real.cos_pi, Int.ceil_eq_iff] <;> norm_num
  · intro blur
    have h := calc_eq_expand blur (-5) 0
    simpa using h

/-- An 8-bit RGBA colour (`swf::Color`): four channels in `0..=255`. -/
structure Color8 where
  r : Nat
  g : Nat
  b : Nat
  a : Nat
deriving DecidableEq

/-- A normalised RGBA colour as packed into the uniform; the `f32` arithmetic
of the source is idealised as exact rational arithmetic. -/
structure RGBAf where
  r : ℚ
  g : ℚ
  b : ℚ
  a : ℚ
deriving DecidableEq

/-- Lines 200-217 of `bevel.rs`: each channel is converted to `f32` and
divided by 255, then the RGB components are multiplied in place by the
normalised alpha component. -/
def premultiply (c : Color8) : RGBAf :=
  let r0 : ℚ := c.r / 255
  let g0 : ℚ := c.g / 255
  let b0 : ℚ := c.b / 255
  let a0 : ℚ := c.a / 255
  ⟨r0 * a0, g0 * a0, b0 * a0, a0⟩

/-- The filter parameters consumed by the uniform-building part of
`BevelFilter::apply` (`swf::BevelFilter` accessors used at lines 200-235). -/
structure BevelArgs where
  highlight_color : Color8
  shadow_color : Color8
  strength : ℚ
  is_on_top : Bool
  is_inner : Bool
  is_knockout : Bool

/-- The `BevelUniform` struct of `bevel.rs` (lines 13-22), with `f32` fields
idealised as rationals and the `u32` fields as naturals. -/
structure BevelUniform where
  highlight_color : RGBAf
  shadow_color : RGBAf
  strength : ℚ
  bevel_type : Nat
  knockout : Nat
  composite_source : Nat
deriving DecidableEq

/-- The `BevelUniform` value built in `BevelFilter::apply`, lines 222-235 of
`bevel.rs`. -/
def build_uniform (f : BevelArgs) : BevelUniform :=
  { highlight_color := premultiply f.highlight_color
    shadow_color := premultiply f.shadow_color
    strength := f.strength
    bevel_type := if f.is_on_top then 2 else if f.is_inner then 1 else 0
    knockout := if f.is_knockout then 1 else 0
    composite_source := 1 }

/-- Claim C2: the uniform stores alpha as `a/255` and each RGB channel as
`channel · a / 255²` (normalise to `[0,1]` first, then multiply RGB by the
normalised alpha), for the highlight and the shadow colour alike; and a colour
with alpha channel `0` packs as `(0,0,0,0)`. -/
theorem C2_premultiplied_colors (f : BevelArgs) :
    ((build_uniform f).highlight_color.a = (f.highlight_color.a : ℚ) / 255 ∧
      (build_uniform f).highlight_color.r =
        (f.highlight_color.r : ℚ) * f.highlight_color.a / 255 ^ 2 ∧
      (build_uniform f).highlight_color.g =
        (f.highlight_color.g : ℚ) * f.highlight_color.a / 255 ^ 2 ∧
      (build_uniform f).highlight_color.b =
        (f.highlight_color.b : ℚ) * f.highlight_color.a / 255 ^ 2) ∧
    ((build_uniform f).shadow_color.a = (f.shadow_color.a : ℚ) / 255 ∧
      (build_uniform f).shadow_color.r =
        (f.shadow_color.r : ℚ) * f.shadow_color.a / 255 ^ 2 ∧
      (build_uniform f).shadow_color.g =
        (f.shadow_color.g : ℚ) * f.shadow_color.a / 255 ^ 2 ∧
      (build_uniform f).shadow_color.b =
        (f.shadow_color.b : ℚ) * f.shadow_color.a / 255 ^ 2) ∧
    (f.highlight_color.a = 0 → (build_uniform f).highlight_color = ⟨0, 0, 0, 0⟩) ∧
    (f.shadow_color.a = 0 → (build_uniform f).shadow_color = ⟨0, 0, 0, 0⟩) := by
  refine ⟨⟨?_, ?_, ?_, ?_⟩, ⟨?_, ?_, ?_, ?_⟩, ?_, ?_⟩ <;>
    simp only [build_uniform, premultiply] <;>
    first
      | ring1
      | (intro h; simp [h, RGBAf.mk.injEq])

/-- Witness for C2: the shadow colour `(10, 20, 30, 0)` (alpha `0`) packs as
`(0,0,0,0)`, and the highlight colour `(255, 0, 0, 128)` packs alpha `128/255`
and red `255·128/255²`. -/
theorem C2_premultiplied_colors_witness :
    (build_uniform ⟨⟨255, 0, 0, 128⟩, ⟨10, 20, 30, 0⟩, 1, false, false, false⟩).shadow_color
        = ⟨0, 0, 0, 0⟩ ∧
      (build_uniform ⟨⟨255, 0, 0, 128⟩, ⟨10, 20, 30, 0⟩, 1, false, false, false⟩).highlight_color.a
        = (128 : ℚ) / 255 ∧
      (build_uniform ⟨⟨255, 0, 0, 128⟩, ⟨10, 20, 30, 0⟩, 1, false, false, false⟩).highlight_color.r
        = (255 : ℚ) * 128 / 255 ^ 2 := by
  obtain ⟨hh, hs, hz, hz2⟩ :=
    C2_premultiplied_colors ⟨⟨255, 0, 0, 128⟩, ⟨10, 20, 30, 0⟩, 1, false, false, false⟩
  refine ⟨hz2 rfl, ?_, ?_⟩
  · simpa using hh.1
  · simpa using hh.2.1

/-- Claim C5: `bevel_type` packs as `2` for Full (`is_on_top`), `1` for Inner
(`is_inner` and not `is_on_top`), `0` otherwise (Outer); `knockout` packs as
`1`/`0`; `composite_source` is always `1`; and `bevel_type` is always in
`{0,1,2}`. -/
theorem C5_mode_packing (f : BevelArgs) :
    (f.is_on_top = true → (build_uniform f).bevel_type = 2) ∧
    (f.is_on_top = false → f.is_inner = true → (build_uniform f).bevel_type = 1) ∧
    (f.is_on_top = false → f.is_inner = false → (build_uniform f).bevel_type = 0) ∧
    ((build_uniform f).knockout = if f.is_knockout then 1 else 0) ∧
    (build_uniform f).composite_source = 1 ∧
    ((build_uniform f).bevel_type = 0 ∨ (build_uniform f).bevel_type = 1 ∨
      (build_uniform f).bevel_type = 2) := by
  obtain ⟨hc, sc, st, t, i, k⟩ := f
  cases t <;> cases i <;> cases k <;> simp [build_uniform]

/-- Witness for C5 at the Inner-knockout parameters: `is_on_top = false`,
`is_inner = true`, `is_knockout = true` give `bevel_type = 1`, `knockout = 1`,
`composite_source = 1`. -/
theorem C5_mode_packing_witness :
    (build_uniform ⟨⟨0, 0, 0, 0⟩, ⟨0, 0, 0, 0⟩, 1, false, true, true⟩).bevel_type = 1 ∧
      (build_uniform ⟨⟨0, 0, 0, 0⟩, ⟨0, 0, 0, 0⟩, 1, false, true, true⟩).knockout = 1 ∧
      (build_uniform ⟨⟨0, 0, 0, 0⟩, ⟨0, 0, 0, 0⟩, 1, false, true, true⟩).composite_source = 1 := by
  obtain ⟨h2, h1, h0, hk, hc, hm⟩ :=
    C5_mode_packing ⟨⟨0, 0, 0, 0⟩, ⟨0, 0, 0, 0⟩, 1, false, true, true⟩
  exact ⟨h1 rfl rfl, by simpa using hk, hc⟩

/-- Claim C9: at distance `0` every angle gives integer offsets `(0, 0)` in
`calculate_dest_rect`, so the destination rectangle equals the blur-expanded
rectangle; the `blur_offset` passed to the vertex-buffer factory is `(0, 0)`;
and the packed `bevel_type` still encodes the mode per the mapping. -/
theorem C9_zero_distance :
    (∀ θ : ℝ, (⌈Real.cos θ * (0 : ℝ)⌉ : Int) = 0 ∧ (⌈Real.sin θ * (0 : ℝ)⌉ : Int) = 0) ∧
    (∀ blur : Rect, calculate_dest_rect blur 0 0 = blur) ∧
    (∀ θ : ℝ, blur_offset ℝ (Real.cos θ) (Real.sin θ) 0 = (0, 0)) ∧
    (∀ f : BevelArgs, (build_uniform f).bevel_type =
      if f.is_on_top then 2 else if f.is_inner then 1 else 0) := by
  refine ⟨fun θ => ⟨by simp, by simp⟩, fun blur => ?_, fun θ => ?_, fun f => rfl⟩
  · rw [calc_eq_expand]
    unfold expand_sym
    simp
  · unfold blur_offset
    simp

/-- Round `n` up to the next multiple of the alignment `a` (the C layout
rule used by `repr(C)` structs). -/
def align_up (n a : Nat) : Nat := ((n + a - 1) / a) * a

/-- Byte offsets of a `repr(C)` struct's fields, each field given as a
`(size, alignment)` pair, starting at offset `off`. -/
def repr_c_offsets : List (Nat × Nat) → Nat → List Nat
  | [], _ => []
  | (sz, al) :: rest, off =>
    let o := align_up off al
    o :: repr_c_offsets rest (o + sz)

/-- The end of the last field of a `repr(C)` struct laid out from `off`. -/
def repr_c_end : List (Nat × Nat) → Nat → Nat
  | [], off => off
  | (sz, al) :: rest, off => repr_c_end rest (align_up off al + sz)

/-- Alignment of a `repr(C)` struct: the maximum of its field alignments. -/
def struct_align (fs : List (Nat × Nat)) : Nat := fs.foldl (fun m p => max m p.2) 1

/-- `std::mem::size_of` for a `repr(C)` struct: the end of the last field
rounded up to the struct alignment. -/
def repr_c_size (fs : List (Nat × Nat)) : Nat :=
  align_up (repr_c_end fs 0) (struct_align fs)

/-- The fields of `BevelUniform` (lines 15-22 of `bevel.rs`) in declaration
order as `(size, alignment)` pairs: `highlight_color : [f32; 4]`,
`shadow_color : [f32; 4]`, `strength : f32`, `bevel_type : u32`,
`knockout : u32`, `composite_source : u32`. -/
def bevel_uniform_fields : List (Nat × Nat) :=
  [(16, 4), (16, 4), (4, 4), (4, 4), (4, 4), (4, 4)]

/-- The uniform binding's minimum size, set at lines 56-58 of `bevel.rs` to
`std::mem::size_of::<BevelUniform>()`. -/
def min_binding_size : Nat := repr_c_size bevel_uniform_fields

/-- Claim C3: the uniform record is exactly 48 bytes, its six fields sit at
offsets 0, 16, 32, 36, 40, 44 in the order highlight_color, shadow_color,
strength, bevel_type, knockout, composite_source, every field offset is
4-byte aligned, and the uniform binding's minimum size equals the struct
size. -/
theorem C3_uniform_layout :
    repr_c_size bevel_uniform_fields = 48 ∧
    repr_c_offsets bevel_uniform_fields 0 = [0, 16, 32, 36, 40, 44] ∧
    (repr_c_offsets bevel_uniform_fields 0).all (fun o => o % 4 == 0) = true ∧
    min_binding_size = 48 := by
  decide

/-- The texture formats this development distinguishes: the fixed
`Rgba8Unorm` fragment target and everything else. -/
inductive TextureFormat where
  | Rgba8Unorm : TextureFormat
  | Other : Nat → TextureFormat
deriving DecidableEq

/-- `wgpu::PrimitiveTopology` variants used by the filter pipelines. -/
inductive PrimitiveTopology where
  | PointList : PrimitiveTopology
  | LineList : PrimitiveTopology
  | LineStrip : PrimitiveTopology
  | TriangleList : PrimitiveTopology
  | TriangleStrip : PrimitiveTopology
deriving DecidableEq

/-- `wgpu::FrontFace`. -/
inductive FrontFace where
  | Ccw : FrontFace
  | Cw : FrontFace
deriving DecidableEq

/-- `wgpu::Face`, used by the optional cull mode. -/
inductive Face where
  | Front : Face
  | Back : Face
deriving DecidableEq

/-- The `wgpu::PrimitiveState` fields set at lines 102-110 of `bevel.rs`. -/
structure PrimitiveState where
  topology : PrimitiveTopology
  strip_index_format : Option Nat
  front_face : FrontFace
  cull_mode : Option Face
  unclipped_depth : Bool
  conservative : Bool
deriving DecidableEq

/-- The `wgpu::MultisampleState` fields set at lines 112-116 of `bevel.rs`;
the sample mask is a `u64`. -/
structure MultisampleState where
  count : Nat
  mask : Nat
  alpha_to_coverage_enabled : Bool
deriving DecidableEq

/-- The parts of the `wgpu::RenderPipelineDescriptor` built in
`BevelFilter::pipeline` that the spec constrains. -/
structure PipelineDesc where
  primitive : PrimitiveState
  depth_stencil : Option Nat
  multisample : MultisampleState
  fragment_targets : List (Option TextureFormat)
deriving DecidableEq

/-- The all-ones `u64` sample mask `!0`. -/
def full_mask : Nat := 2 ^ 64 - 1

/-- The descriptor built in `BevelFilter::pipeline`, lines 94-123 of
`bevel.rs`, as a function of the MSAA sample-count key. -/
def bevel_pipeline_desc (msaa : Nat) : PipelineDesc :=
  { primitive :=
      { topology := PrimitiveTopology.TriangleList
        strip_index_format := none
        front_face := FrontFace.Ccw
        cull_mode := none
        unclipped_depth := false
        conservative := false }
    depth_stencil := none
    multisample :=
      { count := msaa
        mask := full_mask
        alpha_to_coverage_enabled := false }
    fragment_targets := [some TextureFormat.Rgba8Unorm] }

/-- The descriptor chosen inside `apply` (line 167 of `bevel.rs`):
`pipeline()` receives only the sample count, never the source format, so the
choice is a constant function of the format. -/
def apply_pipeline_choice (source_format : TextureFormat) (msaa : Nat) : PipelineDesc :=
  bevel_pipeline_desc msaa

/-- Claim C8: for every sample-count key the pipeline's fragment colour
target format is `Rgba8Unorm` regardless of the source texture's format, its
multisample state is `(count = key, mask = !0, no alpha-to-coverage)`, its
primitive state is triangle-list, CCW front face, no culling, and it has no
depth/stencil state. -/
theorem C8_pipeline_descriptor_fields (msaa : Nat) (fmt fmt2 : TextureFormat) :
    apply_pipeline_choice fmt msaa = apply_pipeline_choice fmt2 msaa ∧
    (bevel_pipeline_desc msaa).fragment_targets = [some TextureFormat.Rgba8Unorm] ∧
    (bevel_pipeline_desc msaa).multisample =
      { count := msaa, mask := 2 ^ 64 - 1, alpha_to_coverage_enabled := false } ∧
    (bevel_pipeline_desc msaa).primitive.topology = PrimitiveTopology.TriangleList ∧
    (bevel_pipeline_desc msaa).primitive.front_face = FrontFace.Ccw ∧
    (bevel_pipeline_desc msaa).primitive.cull_mode = none ∧
    (bevel_pipeline_desc msaa).depth_stencil = none :=
  ⟨rfl, rfl, rfl, rfl, rfl, rfl, rfl⟩

/-- Association-list lookup for the sample-count-keyed pipeline cache
(`SampleCountMap<OnceLock<RenderPipeline>>`, line 27 of `bevel.rs`). -/
def cache_lookup {P : Type} : List (Nat × P) → Nat → Option P
  | [], _ => none
  | (k, v) :: rest, key => if k = key then some v else cache_lookup rest key

/-- `self.pipeline.get_or_init(msaa_sample_count, || ...)` from
`BevelFilter::pipeline`, lines 89-125 of `bevel.rs`: return the cached
pipeline for the key if present, else store and return the freshly built
one.  `build` is the pipeline the closure would create on this call. -/
def get_or_init {P : Type} (cache : List (Nat × P)) (key : Nat) (build : P) :
    P × List (Nat × P) :=
  match cache_lookup cache key with
  | some p => (p, cache)
  | none => (build, (key, build) :: cache)

/-- The pipelines returned by a sequence of `pipeline()` calls with the same
sample count; the n-th call would build `builds[n]` if its slot were empty. -/
def call_results {P : Type} : List P → Nat → List (Nat × P) → List P
  | [], _, _ => []
  | b :: rest, key, cache =>
    let r := get_or_init cache key b
    r.1 :: call_results rest key r.2

/-- The cache state after a sequence of `pipeline()` calls with the same
sample count. -/
def call_states {P : Type} : List P → Nat → List (Nat × P) → List (Nat × P)
  | [], _, cache => cache
  | b :: rest, key, cache => call_states rest key (get_or_init cache key b).2

/-- When the key is already cached, `get_or_init` returns the cached value
and leaves the cache untouched. -/
theorem get_or_init_found {P : Type} (cache : List (Nat × P)) (key : Nat) (p : P)
    (h : cache_lookup cache key = some p) (b : P) :
    get_or_init cache key b = (p, cache) := by
  unfold get_or_init
  rw [h]

/-- After any `get_or_init`, the key is cached with the returned value. -/
theorem lookup_after_get_or_init {P : Type} (cache : List (Nat × P)) (key : Nat) (b : P) :
    cache_lookup (get_or_init cache key b).2 key = some (get_or_init cache key b).1 := by
  unfold get_or_init
  cases h : cache_lookup cache key with
  | some p => simpa [h]
  | none => simp [cache_lookup]

/-- A cache that already holds the key is a fixed point of any further call
sequence for that key. -/
theorem call_states_stable {P : Type} (builds : List P) (key : Nat)
    (cache : List (Nat × P)) (p : P) (h : cache_lookup cache key = some p) :
    call_states builds key cache = cache := by
  induction builds with
  | nil => rfl
  | cons b rest ih =>
    unfold call_states
    rw [get_or_init_found cache key p h b]
    exact ih

/-- A cache that already holds the key answers every further call with the
cached value. -/
theorem call_results_stable {P : Type} (builds : List P) (key : Nat)
    (cache : List (Nat × P)) (p : P) (h : cache_lookup cache key = some p) :
    call_results builds key cache = List.replicate builds.length p := by
  induction builds with
  | nil => rfl
  | cons b rest ih =>
    unfold call_results
    rw [get_or_init_found cache key p h b]
    simp only [List.length_cons, List.replicate_succ, List.cons.injEq]
    exact ⟨trivial, ih⟩

/-- Claim C7: once a pipeline is cached for a sample count it is never
mutated, replaced or evicted: a second call with any rebuild candidate
returns the same pipeline and the same cache; every call after the first
returns the first call's pipeline; and the cache after `1 + n` calls equals
the cache after one call. -/
theorem C7_pipeline_cache_stable :
    (∀ (P : Type) (cache : List (Nat × P)) (key : Nat) (b b2 : P),
        get_or_init (get_or_init cache key b).2 key b2 =
          ((get_or_init cache key b).1, (get_or_init cache key b).2)) ∧
    (∀ (P : Type) (builds : List P) (b : P) (key : Nat) (cache : List (Nat × P)),
        call_results (b :: builds) key cache =
          (get_or_init cache key b).1 ::
            List.replicate builds.length (get_or_init cache key b).1) ∧
    (∀ (P : Type) (builds : List P) (b : P) (key : Nat) (cache : List (Nat × P)),
        call_states (b :: builds) key cache = call_states [b] key cache) := by
  refine ⟨fun P cache key b b2 => ?_, fun P builds b key cache => ?_,
    fun P builds b key cache => ?_⟩
  · exact get_or_init_found _ key _ (lookup_after_get_or_init cache key b) b2
  · unfold call_results
    exact congrArg _ (call_results_stable builds key _ _ (lookup_after_get_or_init cache key b))
  · unfold call_states
    exact (call_states_stable builds key _ _ (lookup_after_get_or_init cache key b)).trans rfl

/-- The `CommandTarget` returned by the blur sub-filter, reduced to the one
capability `apply` uses from it: its colour texture. -/
structure CommandTargetM (Tex : Type) where
  color_texture : Tex

/-- A `wgpu::TextureView` created from a texture by
`texture.create_view(&Default::default())`. -/
structure TextureViewM (Tex : Type) where
  of_texture : Tex

/-- `texture.create_view(&Default::default())` at lines 181-182 of
`bevel.rs`. -/
def create_view (Tex : Type) (t : Tex) : TextureViewM Tex := ⟨t⟩

/-- Lines 175-180 of `bevel.rs`: if the blur sub-filter returned a target,
call `ensure_cleared` on it and read its colour texture; otherwise reuse the
source texture.  The second component records the targets on which
`ensure_cleared` was invoked. -/
def blurred_texture_choice (Tex : Type) (blurred : Option (CommandTargetM Tex))
    (source : Tex) : Tex × List (CommandTargetM Tex) :=
  match blurred with
  | some b => (b.color_texture, [b])
  | none => (source, [])

/-- The view bound at binding 3 of the bind group (lines 182 and 259-262 of
`bevel.rs`): a view of the chosen blurred texture. -/
def binding3_view (Tex : Type) (blurred : Option (CommandTargetM Tex))
    (source : Tex) : TextureViewM Tex :=
  create_view Tex (blurred_texture_choice Tex blurred source).1

/-- The `ensure_cleared` calls made while choosing the blurred texture. -/
def ensure_cleared_calls (Tex : Type) (blurred : Option (CommandTargetM Tex))
    (source : Tex) : List (CommandTargetM Tex) :=
  (blurred_texture_choice Tex blurred source).2

/-- Claim C6: when the blur sub-filter returns `none`, binding 3's view is
created from the original source texture and no clearing happens; when it
returns a target, binding 3's view is created from that target's colour
texture and the target was cleared-if-needed first. -/
theorem C6_binding3_source (Tex : Type) (source : Tex) :
    (binding3_view Tex none source = create_view Tex source ∧
      ensure_cleared_calls Tex none source = []) ∧
    ∀ b : CommandTargetM Tex,
      binding3_view Tex (some b) source = create_view Tex b.color_texture ∧
        ensure_cleared_calls Tex (some b) source = [b] :=
  ⟨⟨rfl, rfl⟩, fun b => ⟨rfl, rfl⟩⟩

/-- `VertexBuffer3DObjectData`, lines 64-79 of
`vertex_buffer_3d_object.rs`: the interior-mutable `base` script object and
the three immutable fields.  `Base`, `Ctx` and `Buf` stand for
`ScriptObjectData`, `Context3DObject` and `Rc<dyn VertexBuffer>`. -/
structure VertexBuffer3DObjectData (Base Ctx Buf : Type) where
  base : Base
  context3d : Ctx
  handle : Buf
  data32_per_vertex : Nat

/-- `VertexBuffer3DObject::from_handle`, lines 26-49: construct the data
record from the supplied values, then run the slot installation and native
initialiser, which can only rewrite the `base` field (it is the only field
behind a write lock; `mutate` abstracts their combined effect on it). -/
def from_handle (Base Ctx Buf : Type) (mutate : Base → Base) (base0 : Base)
    (ctx : Ctx) (h : Buf) (d : Nat) : VertexBuffer3DObjectData Base Ctx Buf :=
  let obj : VertexBuffer3DObjectData Base Ctx Buf :=
    { base := base0, context3d := ctx, handle := h, data32_per_vertex := d }
  { obj with base := mutate obj.base }

/-- `TObject::base_mut`, lines 86-88: the sole mutating operation on the
object, which unlocks and rewrites only the `base` field. -/
def base_mut (Base Ctx Buf : Type) (o : VertexBuffer3DObjectData Base Ctx Buf)
    (f : Base → Base) : VertexBuffer3DObjectData Base Ctx Buf :=
  { o with base := f o.base }

/-- Claim C10: the accessors `handle()`, `context3d()` and
`data32_per_vertex()` return exactly the values supplied to `from_handle`,
and the only mutating operation (`base_mut`, covering every script-visible
mutation) leaves all three fields unchanged. -/
theorem C10_vertex_buffer_fields_immutable :
    (∀ (Base Ctx Buf : Type) (mutate : Base → Base) (base0 : Base) (ctx : Ctx)
        (h : Buf) (d : Nat),
        (from_handle Base Ctx Buf mutate base0 ctx h d).handle = h ∧
        (from_handle Base Ctx Buf mutate base0 ctx h d).context3d = ctx ∧
        (from_handle Base Ctx Buf mutate base0 ctx h d).data32_per_vertex = d) ∧
    ∀ (Base Ctx Buf : Type) (o : VertexBuffer3DObjectData Base Ctx Buf)
        (f : Base → Base),
      (base_mut Base Ctx Buf o f).handle = o.handle ∧
      (base_mut Base Ctx Buf o f).context3d = o.context3d ∧
      (base_mut Base Ctx Buf o f).data32_per_vertex = o.data32_per_vertex :=
  ⟨fun Base Ctx Buf mutate base0 ctx h d => ⟨rfl, rfl, rfl⟩,
    fun Base Ctx Buf o f => ⟨rfl, rfl, rfl⟩⟩
